import Mathlib

/-!
Verification of the system-stats-monitoring metrics pipeline.

This file gives a shallow embedding of the pipeline's core functions and
proves (or refutes) the specified properties about them:

* the agent-side network rate engine
  (`internal/stats/stats.go`, `CalculateNetworkRates`);
* the server-side liveness status derivation
  (`internal/server/database`, `GetHostOverviewList` / `GetHostDetails`);
* the two-phase per-process cpu/mem join (`GetHostDetails`);
* the ingestion path (`internal/server/api/stats_handler.go` `PostStats`,
  `internal/server/database` `WriteStats`);
* the metric-history endpoint validation
  (`internal/server/api/dashboard_handler.go` `GetHostMetricHistory`).

Modelling conventions: Go `uint64` counters are `Nat` with explicit
wrap-around modulo `2 ^ 64`; Go `time.Duration` is an `Int` count of
nanoseconds; Go `time.Time` values are `Int` nanosecond offsets from the
zero time (so `IsZero` is `= 0`); Go `float64` arithmetic is idealised as
exact rational arithmetic over `ℚ`; fallible Go functions return `Except`
or are paired with an explicit outcome; external collaborators (JSON
binding, `time.ParseDuration`, the InfluxDB store) are passed in as
oracle parameters.
-/

namespace StatsMon

/-! ## Rate engine (`internal/stats/stats.go`) -/

/-- Size of the Go `uint64` value space. -/
def u64Mod : Nat := 2 ^ 64

/-- Go unsigned 64-bit subtraction `a - b`: wrap-around (modular)
subtraction, as performed by `current.BytesSent - previous.BytesSent`
on `uint64` operands in `CalculateNetworkRates`. -/
def u64sub (a b : Nat) : Nat := (a + (u64Mod - b % u64Mod)) % u64Mod

/-- Go `time.Duration.Seconds()`: the nanosecond count divided by `10 ^ 9`,
idealised over `ℚ`. -/
def durationSeconds (d : Int) : ℚ := (d : ℚ) / 1000000000

/-- `gopsutil` `net.IOCountersStat`, restricted to the four cumulative
counters `CalculateNetworkRates` reads (all Go `uint64`). -/
structure IOCountersStat where
  bytesSent : Nat
  bytesRecv : Nat
  packetsSent : Nat
  packetsRecv : Nat
deriving DecidableEq

/-- `stats.NetworkData` (`internal/stats/stats.go` lines 68-76). -/
structure NetworkData where
  interfaceName : String
  bytesSentPeriod : Nat
  bytesRecvPeriod : Nat
  packetsSentPeriod : Nat
  packetsRecvPeriod : Nat
  uploadBytesPerSec : ℚ
  downloadBytesPerSec : ℚ
deriving DecidableEq

/-- `stats.CalculateNetworkRates` (`internal/stats/stats.go` lines 243-262).
Rejects `duration.Seconds() <= 0`; otherwise computes the four period
deltas by plain `uint64` subtraction (wrap-around; the source has no
counter-reset branch) and the two byte rates by dividing the deltas by
the elapsed seconds. -/
def CalculateNetworkRates (current previous : IOCountersStat) (duration : Int) :
    Except String NetworkData :=
  if durationSeconds duration ≤ 0 then
    Except.error "duration must be positive"
  else
    let bytesSentPeriod := u64sub current.bytesSent previous.bytesSent
    let bytesRecvPeriod := u64sub current.bytesRecv previous.bytesRecv
    Except.ok
      { interfaceName := "all"
        bytesSentPeriod := bytesSentPeriod
        bytesRecvPeriod := bytesRecvPeriod
        packetsSentPeriod := u64sub current.packetsSent previous.packetsSent
        packetsRecvPeriod := u64sub current.packetsRecv previous.packetsRecv
        uploadBytesPerSec := (bytesSentPeriod : ℚ) / durationSeconds duration
        downloadBytesPerSec := (bytesRecvPeriod : ℚ) / durationSeconds duration }

lemma durationSeconds_nonpos {d : Int} (hd : d ≤ 0) : durationSeconds d ≤ 0 := by
  unfold durationSeconds
  apply div_nonpos_iff.mpr
  exact Or.inr ⟨by exact_mod_cast hd, by norm_num⟩

lemma durationSeconds_pos {d : Int} (hd : 0 < d) : 0 < durationSeconds d := by
  unfold durationSeconds
  apply div_pos
  · exact_mod_cast hd
  · norm_num

lemma u64sub_of_le {a b : Nat} (hba : b ≤ a) (ha : a < u64Mod) :
    u64sub a b = a - b := by
  unfold u64sub u64Mod at *
  omega

lemma u64sub_of_lt {a b : Nat} (hab : a < b) (hb : b < u64Mod) :
    u64sub a b = a + u64Mod - b := by
  unfold u64sub u64Mod at *
  omega

/-- C7: for every pair of counter samples (any counter values whatsoever)
and every elapsed duration ≤ 0, `CalculateNetworkRates` fails with the
invalid-duration error and returns no computed deltas or rates. -/
theorem C7_invalid_duration (current previous : IOCountersStat) (d : Int)
    (hd : d ≤ 0) :
    CalculateNetworkRates current previous d =
      Except.error "duration must be positive" := by
  unfold CalculateNetworkRates
  rw [if_pos (durationSeconds_nonpos hd)]

/-- Witness for C7 at a concrete input: `elapsed = 0` with arbitrary
counters is rejected. -/
theorem C7_invalid_duration_witness :
    CalculateNetworkRates ⟨700, 800, 9, 10⟩ ⟨1, 2, 3, 4⟩ 0 =
      Except.error "duration must be positive" :=
  C7_invalid_duration ⟨700, 800, 9, 10⟩ ⟨1, 2, 3, 4⟩ 0 (by decide)

/-- C8: for every pair of counter samples with `current ≥ previous` on each
counter (all within the `uint64` range) and every elapsed > 0, the rate
computation succeeds with delta = current − previous on each counter and
per-second byte rates (current − previous) / elapsed_seconds, exactly. -/
theorem C8_exact_rates (current previous : IOCountersStat) (d : Int)
    (hbs : previous.bytesSent ≤ current.bytesSent)
    (hbsR : current.bytesSent < u64Mod)
    (hbr : previous.bytesRecv ≤ current.bytesRecv)
    (hbrR : current.bytesRecv < u64Mod)
    (hps : previous.packetsSent ≤ current.packetsSent)
    (hpsR : current.packetsSent < u64Mod)
    (hpr : previous.packetsRecv ≤ current.packetsRecv)
    (hprR : current.packetsRecv < u64Mod)
    (hd : 0 < d) :
    CalculateNetworkRates current previous d = Except.ok
      { interfaceName := "all"
        bytesSentPeriod := current.bytesSent - previous.bytesSent
        bytesRecvPeriod := current.bytesRecv - previous.bytesRecv
        packetsSentPeriod := current.packetsSent - previous.packetsSent
        packetsRecvPeriod := current.packetsRecv - previous.packetsRecv
        uploadBytesPerSec :=
          ((current.bytesSent - previous.bytesSent : Nat) : ℚ) / durationSeconds d
        downloadBytesPerSec :=
          ((current.bytesRecv - previous.bytesRecv : Nat) : ℚ) / durationSeconds d } := by
  unfold CalculateNetworkRates
  rw [if_neg (not_le.mpr (durationSeconds_pos hd))]
  rw [u64sub_of_le hbs hbsR, u64sub_of_le hbr hbrR,
    u64sub_of_le hps hpsR, u64sub_of_le hpr hprR]

/-- Witness for C8 at a concrete input: counters advance by
(60, 30, 7, 3) over 2 seconds, giving byte rates 30 and 15. -/
theorem C8_exact_rates_witness :
    CalculateNetworkRates ⟨100, 50, 10, 5⟩ ⟨40, 20, 3, 2⟩ 2000000000 =
      Except.ok ⟨"all", 60, 30, 7, 3, 30, 15⟩ :=
  (C8_exact_rates ⟨100, 50, 10, 5⟩ ⟨40, 20, 3, 2⟩ 2000000000
    (by decide) (by decide) (by decide) (by decide) (by decide)
    (by decide) (by decide) (by decide) (by decide)).trans
    (by norm_num [durationSeconds])

/-- C1 as stated is false: on a counter reset (`current < previous`) the
source performs plain wrap-around `uint64` subtraction, so the delta is
the wrap-around value `current + 2^64 − previous`, not `current`. Concretely,
with `bytesSent` falling from 10 to 5 over 1 second the computed
`bytesSentPeriod` is `2^64 − 5`, which differs from the claimed fresh
baseline of 5. -/
theorem C1_counterexample :
    (CalculateNetworkRates ⟨5, 0, 0, 0⟩ ⟨10, 0, 0, 0⟩ 1000000000).toOption.map
        NetworkData.bytesSentPeriod = some 18446744073709551611 ∧
      (18446744073709551611 : Nat) ≠ 5 := by
  refine ⟨?_, by decide⟩
  unfold CalculateNetworkRates
  rw [if_neg (not_le.mpr (durationSeconds_pos (by decide)))]
  decide

/-- C1 amended: for every elapsed > 0 and a counter reset
(`current < previous`, within the `uint64` range) on any of the four
counters, the computed delta for that counter is the wrap-around value
`current + 2^64 − previous` — at least `current`, but not equal to it:
the source has no reset branch — and for the byte counters the
per-second rate is that wrap-around delta divided by the elapsed
seconds, so the rate is never negative but is not `current / elapsed`. -/
theorem C1_reset_wraps (current previous : IOCountersStat) (d : Int)
    (hd : 0 < d) :
    ((current.bytesSent < previous.bytesSent ∧ previous.bytesSent < u64Mod) →
      ((CalculateNetworkRates current previous d).toOption.map
          NetworkData.bytesSentPeriod =
        some (current.bytesSent + u64Mod - previous.bytesSent)) ∧
      ((CalculateNetworkRates current previous d).toOption.map
          NetworkData.uploadBytesPerSec =
        some (((current.bytesSent + u64Mod - previous.bytesSent : Nat) : ℚ) /
          durationSeconds d)) ∧
      current.bytesSent ≤ current.bytesSent + u64Mod - previous.bytesSent) ∧
    ((current.bytesRecv < previous.bytesRecv ∧ previous.bytesRecv < u64Mod) →
      ((CalculateNetworkRates current previous d).toOption.map
          NetworkData.bytesRecvPeriod =
        some (current.bytesRecv + u64Mod - previous.bytesRecv)) ∧
      ((CalculateNetworkRates current previous d).toOption.map
          NetworkData.downloadBytesPerSec =
        some (((current.bytesRecv + u64Mod - previous.bytesRecv : Nat) : ℚ) /
          durationSeconds d)) ∧
      current.bytesRecv ≤ current.bytesRecv + u64Mod - previous.bytesRecv) ∧
    ((current.packetsSent < previous.packetsSent ∧
        previous.packetsSent < u64Mod) →
      ((CalculateNetworkRates current previous d).toOption.map
          NetworkData.packetsSentPeriod =
        some (current.packetsSent + u64Mod - previous.packetsSent)) ∧
      current.packetsSent ≤ current.packetsSent + u64Mod - previous.packetsSent) ∧
    ((current.packetsRecv < previous.packetsRecv ∧
        previous.packetsRecv < u64Mod) →
      ((CalculateNetworkRates current previous d).toOption.map
          NetworkData.packetsRecvPeriod =
        some (current.packetsRecv + u64Mod - previous.packetsRecv)) ∧
      current.packetsRecv ≤ current.packetsRecv + u64Mod - previous.packetsRecv) := by
  unfold CalculateNetworkRates
  rw [if_neg (not_le.mpr (durationSeconds_pos hd))]
  refine ⟨?_, ?_, ?_, ?_⟩
  · rintro ⟨hlt, hR⟩
    rw [u64sub_of_lt hlt hR]
    refine ⟨rfl, rfl, ?_⟩
    unfold u64Mod at *
    omega
  · rintro ⟨hlt, hR⟩
    rw [u64sub_of_lt hlt hR]
    refine ⟨rfl, rfl, ?_⟩
    unfold u64Mod at *
    omega
  · rintro ⟨hlt, hR⟩
    rw [u64sub_of_lt hlt hR]
    refine ⟨rfl, ?_⟩
    unfold u64Mod at *
    omega
  · rintro ⟨hlt, hR⟩
    rw [u64sub_of_lt hlt hR]
    refine ⟨rfl, ?_⟩
    unfold u64Mod at *
    omega

/-- Witness for the amended C1 at a concrete input resetting all four
counters: counters fall from (10, 20, 30, 40) to (5, 6, 7, 8) over 1
second, giving the wrap-around deltas `2^64 − 5`, `2^64 − 14`,
`2^64 − 23` and `2^64 − 32`. -/
theorem C1_reset_wraps_witness :
    ((CalculateNetworkRates ⟨5, 6, 7, 8⟩ ⟨10, 20, 30, 40⟩ 1000000000).toOption.map
      NetworkData.bytesSentPeriod = some 18446744073709551611) ∧
    ((CalculateNetworkRates ⟨5, 6, 7, 8⟩ ⟨10, 20, 30, 40⟩ 1000000000).toOption.map
      NetworkData.bytesRecvPeriod = some 18446744073709551602) ∧
    ((CalculateNetworkRates ⟨5, 6, 7, 8⟩ ⟨10, 20, 30, 40⟩ 1000000000).toOption.map
      NetworkData.packetsSentPeriod = some 18446744073709551593) ∧
    ((CalculateNetworkRates ⟨5, 6, 7, 8⟩ ⟨10, 20, 30, 40⟩ 1000000000).toOption.map
      NetworkData.packetsRecvPeriod = some 18446744073709551584) := by
  have h := C1_reset_wraps ⟨5, 6, 7, 8⟩ ⟨10, 20, 30, 40⟩ 1000000000 (by decide)
  refine ⟨?_, ?_, ?_, ?_⟩
  · exact ((h.1 (by decide)).1).trans (by decide)
  · exact ((h.2.1 (by decide)).1).trans (by decide)
  · exact ((h.2.2.1 (by decide)).1).trans (by decide)
  · exact ((h.2.2.2 (by decide)).1).trans (by decide)

/-! ## Liveness status derivation (`internal/server/database`, reader) -/

/-- `activeHostLookback` constant (part_005 line 18): 30 seconds, in
nanoseconds. -/
def activeHostLookbackNs : Int := 30 * 1000000000

/-- The 5-second grace added to the active window in both status checks
(part_005 lines 142 and 444). -/
def graceNs : Int := 5 * 1000000000

/-- Status derivation of `GetHostOverviewList` (part_005 lines 142-149):
offline when `now.Sub(overview.LastSeen)` exceeds the active window plus
the 5-second grace; otherwise warning when cpu% > 85 or mem% > 85 or
disk% > 90; otherwise online. Times are nanosecond instants. -/
def overviewStatus (nowNs lastSeenNs : Int) (cpuUsage ramUsage diskUsage : ℚ) :
    String :=
  if nowNs - lastSeenNs ≤ activeHostLookbackNs + graceNs then
    if cpuUsage > 85 ∨ ramUsage > 85 ∨ diskUsage > 90 then "warning" else "online"
  else "offline"

/-- Status derivation of `GetHostDetails` (part_005 lines 444-451): same
staleness rule, but the warning condition checks only `CPUUsage` and
`RAMUsage` — the source has the comment "Add disk warning later" and the
host's disk usage percentage is not consulted, so the `diskUsage`
argument is unused. -/
def detailsStatus (nowNs lastSeenNs : Int) (cpuUsage ramUsage diskUsage : ℚ) :
    String :=
  if nowNs - lastSeenNs ≤ activeHostLookbackNs + graceNs then
    if cpuUsage > 85 ∨ ramUsage > 85 then "warning" else "online"
  else "offline"

/-- C2 as stated is false for the details path: a freshly seen host with
cpu% = 0, mem% = 0 and disk% = 95 > 90 is reported "online" by
`GetHostDetails`, where the claim requires "warning" for both status
derivations. -/
theorem C2_counterexample :
    detailsStatus 0 0 0 0 95 = "online" ∧
      (95 : ℚ) > 90 ∧ (0 : Int) - 0 ≤ activeHostLookbackNs + graceNs := by
  refine ⟨?_, by norm_num, by decide⟩
  rfl

/-- C2 amended: the overview status is offline iff `now − last_seen`
exceeds the active window plus the 5-second grace, else warning iff
cpu% > 85 or mem% > 85 or disk% > 90 (strict thresholds), else online;
the details status uses the same staleness rule but its warning
condition checks only cpu% > 85 or mem% > 85 — disk usage is not
consulted there. Both partitions are exhaustive. -/
theorem C2_status_partition (nowNs lastSeenNs : Int) (cpu ram disk : ℚ) :
    (overviewStatus nowNs lastSeenNs cpu ram disk = "offline" ↔
      nowNs - lastSeenNs > activeHostLookbackNs + graceNs) ∧
    (nowNs - lastSeenNs ≤ activeHostLookbackNs + graceNs →
      (overviewStatus nowNs lastSeenNs cpu ram disk = "warning" ↔
        (cpu > 85 ∨ ram > 85 ∨ disk > 90)) ∧
      (overviewStatus nowNs lastSeenNs cpu ram disk = "online" ↔
        ¬(cpu > 85 ∨ ram > 85 ∨ disk > 90))) ∧
    (detailsStatus nowNs lastSeenNs cpu ram disk = "offline" ↔
      nowNs - lastSeenNs > activeHostLookbackNs + graceNs) ∧
    (nowNs - lastSeenNs ≤ activeHostLookbackNs + graceNs →
      (detailsStatus nowNs lastSeenNs cpu ram disk = "warning" ↔
        (cpu > 85 ∨ ram > 85)) ∧
      (detailsStatus nowNs lastSeenNs cpu ram disk = "online" ↔
        ¬(cpu > 85 ∨ ram > 85))) := by
  unfold overviewStatus detailsStatus
  by_cases hstale : nowNs - lastSeenNs ≤ activeHostLookbackNs + graceNs
  · rw [if_pos hstale, if_pos hstale]
    by_cases how : cpu > 85 ∨ ram > 85 ∨ disk > 90
    · by_cases hdw : cpu > 85 ∨ ram > 85
      · rw [if_pos how, if_pos hdw]
        simp [hstale, how, hdw, not_lt.mpr hstale]
      · rw [if_pos how, if_neg hdw]
        simp [hstale, how, hdw, not_lt.mpr hstale]
    · have hdw : ¬(cpu > 85 ∨ ram > 85) := fun h =>
        how (h.elim (fun h1 => Or.inl h1) (fun h2 => Or.inr (Or.inl h2)))
      rw [if_neg how, if_neg hdw]
      simp [hstale, how, hdw, not_lt.mpr hstale]
  · rw [if_neg hstale, if_neg hstale]
    simp [hstale, lt_of_not_le hstale]

/-- Witness for the amended C2 at concrete inputs: at cpu% exactly 85 the
overview host is "online" (threshold strict); at disk% = 95 the overview
host is "warning" while the details host is "online"; a host last seen
36 seconds ago is "offline" in both derivations. -/
theorem C2_status_partition_witness :
    overviewStatus 0 0 85 0 0 = "online" ∧
      overviewStatus 0 0 0 0 95 = "warning" ∧
      detailsStatus 0 0 0 0 95 = "online" ∧
      overviewStatus 36000000000 0 0 0 0 = "offline" ∧
      detailsStatus 36000000000 0 0 0 0 = "offline" := by
  refine ⟨?_, ?_, ?_, ?_, ?_⟩
  · exact (((C2_status_partition 0 0 85 0 0).2.1 (by decide)).2).mpr (by norm_num)
  · exact (((C2_status_partition 0 0 0 0 95).2.1 (by decide)).1).mpr (by norm_num)
  · exact (((C2_status_partition 0 0 0 0 95).2.2.2 (by decide)).2).mpr (by norm_num)
  · exact ((C2_status_partition 36000000000 0 0 0 0).1).mpr (by decide)
  · exact ((C2_status_partition 36000000000 0 0 0 0).2.2.1).mpr (by decide)

/-! ## Two-phase process join (`GetHostDetails`, part_005 lines 323-441) -/

/-- One pivoted row of a process-metrics query leg: the `pid` and `name`
tag values (strings) and the single extracted field value
(`mem_percent` in phase A, `cpu_percent` in phase B). -/
structure ProcRecord where
  pid : String
  name : String
  value : ℚ
deriving DecidableEq

/-- `models.ProcessDetail`, restricted to the fields the join populates
(the `Username` field is excluded in the source queries). Go's `float32`
memory percentage is idealised over `ℚ`. -/
structure ProcessDetail where
  pid : Int
  name : String
  cpuPercent : ℚ
  memoryPercent : ℚ
deriving DecidableEq

/-- Key building of the join (part_005 lines 361 and 406):
`fmt.Sprintf("%s_%s", pidStr, nameStr)`. -/
def procKey (pidStr nameStr : String) : String := pidStr ++ "_" ++ nameStr

/-- Accumulator pass of a decimal scan over characters: fails on the
first non-digit. -/
def digitsToNat (acc : Nat) : List Char → Option Nat
  | [] => some acc
  | c :: cs => if c.isDigit then digitsToNat (acc * 10 + (c.toNat - 48)) cs else none

/-- Optionally-signed decimal integer scan, modelling the stdlib
collaborator `fmt.Sscan` with an integer target: parses an optional
leading minus sign followed by decimal digits, failing on an empty
string or any other character. -/
def parseDecInt (s : String) : Option Int :=
  match s.data with
  | [] => none
  | '-' :: cs =>
      match cs with
      | [] => none
      | _ => (digitsToNat 0 cs).map fun n => -(n : Int)
  | cs => (digitsToNat 0 cs).map fun n => (n : Int)

/-- `fmt.Sscan(pidStr, &pidVal)` with `pidVal` left at its zero value when
the scan fails (the source ignores `scanErr` and keeps going): decimal
integer parse defaulting to 0. -/
def parsePid (s : String) : Int := (parseDecInt s).getD 0

/-- The Go `map[string]*models.ProcessDetail`, modelled as an association
list with replace-on-insert semantics. -/
abbrev ProcMap := List (String × ProcessDetail)

/-- Map lookup (`processMap[processKey]`). -/
def mapLookup (k : String) : ProcMap → Option ProcessDetail
  | [] => none
  | (k', v) :: rest => if k' = k then some v else mapLookup k rest

/-- Map insert (`processMap[processKey] = ...`), replacing an existing
binding for the key. -/
def mapInsert (k : String) (v : ProcessDetail) : ProcMap → ProcMap
  | [] => [(k, v)]
  | (k', v') :: rest =>
      if k' = k then (k, v) :: rest else (k', v') :: mapInsert k v rest

/-- The entry phase A builds for a `mem_percent` row (part_005 lines
362-369): parsed pid, name, the memory percentage, and cpu defaulted
to 0. -/
def memEntry (r : ProcRecord) : ProcessDetail :=
  { pid := parsePid r.pid
    name := r.name
    cpuPercent := 0
    memoryPercent := r.value }

/-- The entry phase B builds for a `cpu_percent` row with no prior mem
entry (part_005 lines 418-424): parsed pid, name, the cpu percentage,
and memory defaulted to 0. -/
def cpuEntry (r : ProcRecord) : ProcessDetail :=
  { pid := parsePid r.pid
    name := r.name
    cpuPercent := r.value
    memoryPercent := 0 }

/-- Phase A of the join (part_005 lines 343-370): seed the map from the
`mem_percent` rows. -/
def phaseA : List ProcRecord → ProcMap → ProcMap
  | [], m => m
  | r :: rs, m => phaseA rs (mapInsert (procKey r.pid r.name) (memEntry r) m)

/-- Phase B of the join (part_005 lines 392-426): for each `cpu_percent`
row, update the cpu field of the existing entry for the key, or insert a
fresh entry with memory defaulted to 0. -/
def phaseB : List ProcRecord → ProcMap → ProcMap
  | [], m => m
  | r :: rs, m =>
      match mapLookup (procKey r.pid r.name) m with
      | some d =>
          phaseB rs (mapInsert (procKey r.pid r.name)
            { d with cpuPercent := r.value } m)
      | none =>
          phaseB rs (mapInsert (procKey r.pid r.name) (cpuEntry r) m)

/-- Sorting relation of the final `sort.Slice` (part_005 lines 438-440):
by pid ascending. -/
def pidLE (a b : ProcessDetail) : Prop := a.pid ≤ b.pid

instance : DecidableRel pidLE := fun a b => Int.decLe a.pid b.pid

instance : IsTotal ProcessDetail pidLE := ⟨fun a b => Int.le_total a.pid b.pid⟩

instance : IsTrans ProcessDetail pidLE := ⟨fun _ _ _ h h' => le_trans h h'⟩

/-- The final process list of `GetHostDetails` (part_005 lines 325-441):
run both phases over an initially empty map, collect the values, and
sort by pid ascending. -/
def hostProcesses (memRecs cpuRecs : List ProcRecord) : List ProcessDetail :=
  List.insertionSort pidLE ((phaseB cpuRecs (phaseA memRecs [])).map Prod.snd)

lemma mapLookup_mapInsert_self (k : String) (v : ProcessDetail) (m : ProcMap) :
    mapLookup k (mapInsert k v m) = some v := by
  induction m with
  | nil => simp [mapInsert, mapLookup]
  | cons hd tl ih =>
      obtain ⟨k', v'⟩ := hd
      by_cases h : k' = k
      · simp [mapInsert, mapLookup, h]
      · simp [mapInsert, mapLookup, h, ih]

lemma mapLookup_mapInsert_ne {j k : String} (hjk : j ≠ k) (v : ProcessDetail)
    (m : ProcMap) : mapLookup j (mapInsert k v m) = mapLookup j m := by
  have hkj : ¬(k = j) := fun h => hjk h.symm
  induction m with
  | nil => simp [mapInsert, mapLookup, hkj]
  | cons hd tl ih =>
      obtain ⟨k', v'⟩ := hd
      by_cases h : k' = k
      · subst h
        simp [mapInsert, mapLookup, hkj]
      · by_cases h' : k' = j
        · simp [mapInsert, mapLookup, h, h', hjk]
        · simp [mapInsert, mapLookup, h, h', ih]

/-- Keys of the records of a query leg. -/
def recKeys (rs : List ProcRecord) : List String :=
  rs.map fun r => procKey r.pid r.name

lemma mapLookup_phaseA_not_mem {k : String} {rs : List ProcRecord}
    (hk : k ∉ recKeys rs) (m : ProcMap) :
    mapLookup k (phaseA rs m) = mapLookup k m := by
  induction rs generalizing m with
  | nil => rfl
  | cons r rs ih =>
      simp only [recKeys, List.map_cons, List.mem_cons] at hk
      push_neg at hk
      rw [phaseA, ih (by simpa [recKeys] using hk.2),
        mapLookup_mapInsert_ne hk.1]

lemma mapLookup_phaseA_mem {rm : ProcRecord} {memRecs : List ProcRecord}
    (hmem : rm ∈ memRecs) (hnd : (recKeys memRecs).Nodup) (m : ProcMap) :
    mapLookup (procKey rm.pid rm.name) (phaseA memRecs m) = some (memEntry rm) := by
  induction memRecs generalizing m with
  | nil => cases hmem
  | cons r rs ih =>
      simp only [recKeys, List.map_cons, List.nodup_cons] at hnd
      rcases List.mem_cons.mp hmem with heq | htl
      · subst heq
        rw [phaseA, mapLookup_phaseA_not_mem (by simpa [recKeys] using hnd.1),
          mapLookup_mapInsert_self]
      · exact ih htl (by simpa [recKeys] using hnd.2) _

lemma mapLookup_phaseB_not_mem {k : String} {rs : List ProcRecord}
    (hk : k ∉ recKeys rs) (m : ProcMap) :
    mapLookup k (phaseB rs m) = mapLookup k m := by
  induction rs generalizing m with
  | nil => rfl
  | cons r rs ih =>
      simp only [recKeys, List.map_cons, List.mem_cons] at hk
      push_neg at hk
      rw [phaseB]
      cases mapLookup (procKey r.pid r.name) m with
      | none =>
          rw [ih (by simpa [recKeys] using hk.2), mapLookup_mapInsert_ne hk.1]
      | some d =>
          rw [ih (by simpa [recKeys] using hk.2), mapLookup_mapInsert_ne hk.1]

lemma mapLookup_phaseB_mem {rc : ProcRecord} {cpuRecs : List ProcRecord}
    (hmem : rc ∈ cpuRecs) (hnd : (recKeys cpuRecs).Nodup) (m : ProcMap) :
    mapLookup (procKey rc.pid rc.name) (phaseB cpuRecs m) =
      (match mapLookup (procKey rc.pid rc.name) m with
        | some d => some { d with cpuPercent := rc.value }
        | none => some (cpuEntry rc)) := by
  induction cpuRecs generalizing m with
  | nil => cases hmem
  | cons r rs ih =>
      simp only [recKeys, List.map_cons, List.nodup_cons] at hnd
      rcases List.mem_cons.mp hmem with heq | htl
      · subst heq
        rw [phaseB]
        cases hm : mapLookup (procKey rc.pid rc.name) m with
        | none =>
            rw [mapLookup_phaseB_not_mem (by simpa [recKeys] using hnd.1),
              mapLookup_mapInsert_self]
        | some d =>
            rw [mapLookup_phaseB_not_mem (by simpa [recKeys] using hnd.1),
              mapLookup_mapInsert_self]
      · have hne : procKey r.pid r.name ≠ procKey rc.pid rc.name := by
          intro h
          exact hnd.1 (h ▸ (List.mem_map.mpr ⟨rc, htl, rfl⟩))
        rw [phaseB]
        cases hm : mapLookup (procKey r.pid r.name) m with
        | none =>
            rw [ih htl (by simpa [recKeys] using hnd.2),
              mapLookup_mapInsert_ne (Ne.symm hne)]
        | some d =>
            rw [ih htl (by simpa [recKeys] using hnd.2),
              mapLookup_mapInsert_ne (Ne.symm hne)]

/-- C3: in the details two-phase join (with one row per (pid, name) key in
each query leg, as the `group |> last()` legs produce): a key seen in the
memory phase with value m and then in the cpu phase with value c ends up
with both values {pid, name, cpu: c, mem: m}; a key seen only in the cpu
phase is inserted with memory_percent = 0; and the final process list is
sorted by pid ascending. -/
theorem C3_process_join (memRecs cpuRecs : List ProcRecord)
    (hndm : (recKeys memRecs).Nodup) (hndc : (recKeys cpuRecs).Nodup) :
    (∀ rm ∈ memRecs, ∀ rc ∈ cpuRecs, rm.pid = rc.pid → rm.name = rc.name →
      mapLookup (procKey rm.pid rm.name) (phaseB cpuRecs (phaseA memRecs [])) =
        some { pid := parsePid rm.pid, name := rm.name,
               cpuPercent := rc.value, memoryPercent := rm.value }) ∧
    (∀ rc ∈ cpuRecs, (∀ rm ∈ memRecs,
        procKey rm.pid rm.name ≠ procKey rc.pid rc.name) →
      mapLookup (procKey rc.pid rc.name) (phaseB cpuRecs (phaseA memRecs [])) =
        some { pid := parsePid rc.pid, name := rc.name,
               cpuPercent := rc.value, memoryPercent := 0 }) ∧
    List.Sorted pidLE (hostProcesses memRecs cpuRecs) := by
  refine ⟨?_, ?_, List.sorted_insertionSort pidLE _⟩
  · intro rm hm rc hc hpid hname
    have hkey : procKey rm.pid rm.name = procKey rc.pid rc.name := by
      rw [hpid, hname]
    have hA := mapLookup_phaseA_mem hm hndm ([] : ProcMap)
    have hB := mapLookup_phaseB_mem hc hndc (phaseA memRecs [])
    rw [hkey, hB, ← hkey, hA]
    simp [memEntry]
  · intro rc hc hnone
    have hB := mapLookup_phaseB_mem hc hndc (phaseA memRecs [])
    have hA : mapLookup (procKey rc.pid rc.name) (phaseA memRecs []) = none := by
      rw [mapLookup_phaseA_not_mem]
      · rfl
      · intro hmem
        rcases List.mem_map.mp hmem with ⟨rm, hrm, hk⟩
        exact hnone rm hrm hk
    rw [hB, hA]
    rfl

/-- Witness for C3 at concrete inputs: a mem-only row {pid "10", name "x",
5} merged with a cpu row {pid "10", name "x", 20} yields {10, "x", cpu
20, mem 5}; the cpu-only row {pid "7", name "y", 3} yields {7, "y", cpu
3, mem 0}; the final list is sorted by pid. -/
theorem C3_process_join_witness :
    mapLookup "10_x" (phaseB [⟨"10", "x", 20⟩, ⟨"7", "y", 3⟩]
        (phaseA [⟨"10", "x", 5⟩] [])) = some ⟨10, "x", 20, 5⟩ ∧
    mapLookup "7_y" (phaseB [⟨"10", "x", 20⟩, ⟨"7", "y", 3⟩]
        (phaseA [⟨"10", "x", 5⟩] [])) = some ⟨7, "y", 3, 0⟩ ∧
    List.Sorted pidLE
      (hostProcesses [⟨"10", "x", 5⟩] [⟨"10", "x", 20⟩, ⟨"7", "y", 3⟩]) := by
  have h := C3_process_join [⟨"10", "x", 5⟩] [⟨"10", "x", 20⟩, ⟨"7", "y", 3⟩]
    (by simp [recKeys]) (by simp [recKeys, procKey])
  refine ⟨?_, ?_, h.2.2⟩
  · have hv := h.1 ⟨"10", "x", 5⟩ (by simp) ⟨"10", "x", 20⟩ (by simp) rfl rfl
    rw [show procKey "10" "x" = "10_x" from by decide,
      show parsePid "10" = 10 from by decide] at hv
    exact hv
  · have hv := h.2.1 ⟨"7", "y", 3⟩ (by simp) (by
      intro rm hrm
      simp only [List.mem_singleton] at hrm
      subst hrm
      decide)
    rw [show procKey "7" "y" = "7_y" from by decide,
      show parsePid "7" = 7 from by decide] at hv
    exact hv

/-! ## Ingestion (`models.ClientPayload`, `WriteStats`, `PostStats`) -/

/-- `models.SystemInfoPayload`. -/
structure SystemInfoPayload where
  hostname : String
  hostID : String
  os : String
  osVersion : String
  kernel : String
  kernelVersion : String
  uptime : String
deriving DecidableEq

/-- `models.CPUInfoPayload`. -/
structure CPUInfoPayload where
  modelName : String
  cores : Int
  usage : ℚ
deriving DecidableEq

/-- `models.MemInfoPayload`. -/
structure MemInfoPayload where
  totalGB : ℚ
  freeGB : ℚ
  usagePercent : ℚ
deriving DecidableEq

/-- `models.NetworkPayload`. -/
structure NetworkPayload where
  interfaceName : String
  bytesSentPeriod : Nat
  bytesRecvPeriod : Nat
  packetsSentPeriod : Nat
  packetsRecvPeriod : Nat
  uploadBytesPerSec : ℚ
  downloadBytesPerSec : ℚ
deriving DecidableEq

/-- `models.ProcessPayload` (pid is a Go `int32`). -/
structure ProcessPayload where
  pid : Int
  name : String
  cpuPercent : ℚ
  memoryPercent : ℚ
  username : String
deriving DecidableEq

/-- `models.DiskUsagePayload`. -/
structure DiskUsagePayload where
  path : String
  totalGB : ℚ
  usedGB : ℚ
  freeGB : ℚ
  usagePercent : ℚ
deriving DecidableEq

/-- `models.ClientPayload`. `collectedAt` is a `time.Time` modelled as the
nanosecond offset from Go's zero time, so `IsZero` is `= 0`. -/
structure ClientPayload where
  collectedAt : Int
  system : SystemInfoPayload
  cpu : CPUInfoPayload
  memory : MemInfoPayload
  network : NetworkPayload
  processes : List ProcessPayload
  disks : List DiskUsagePayload
deriving DecidableEq

/-- An InfluxDB field value (`map[string]interface{}` entries). -/
inductive FieldValue
  | str (s : String)
  | int (i : Int)
  | rat (q : ℚ)
  | uint (n : Nat)
deriving DecidableEq

/-- An InfluxDB point (`write.NewPoint(measurement, tags, fields, ts)`). -/
structure Point where
  measurement : String
  tags : List (String × String)
  fields : List (String × FieldValue)
  timestamp : Int
deriving DecidableEq

/-- The shared `tags` map for all points of one payload (part_005 lines
582-587), including the `net_interface` tag that lines 608-610 add to
the same map (only for a non-empty interface name other than "all")
before any point is created; the disk and process loops then copy the
map, so every point carries it. -/
def commonTags (p : ClientPayload) : List (String × String) :=
  [("host_id", p.system.hostID), ("hostname", p.system.hostname),
   ("os", p.system.os), ("kernel_arch", p.system.kernelVersion)] ++
    (if p.network.interfaceName ≠ "" ∧ p.network.interfaceName ≠ "all" then
      [("net_interface", p.network.interfaceName)]
    else [])

/-- The `system_metrics` point (part_005 lines 590-613). The source
stores `payload.Memory.UsagePercent` under both `mem_used_gb` and
`mem_usage_percent` (the field-aliasing noted in the spec). -/
def systemPoint (p : ClientPayload) : Point :=
  { measurement := "system_metrics"
    tags := commonTags p
    fields :=
      [("uptime_seconds", FieldValue.str p.system.uptime),
       ("cpu_model_name", FieldValue.str p.cpu.modelName),
       ("cpu_cores", FieldValue.int p.cpu.cores),
       ("cpu_usage_percent", FieldValue.rat p.cpu.usage),
       ("mem_total_gb", FieldValue.rat p.memory.totalGB),
       ("mem_used_gb", FieldValue.rat p.memory.usagePercent),
       ("mem_available_gb", FieldValue.rat p.memory.freeGB),
       ("mem_usage_percent", FieldValue.rat p.memory.usagePercent),
       ("net_bytes_sent_period", FieldValue.uint p.network.bytesSentPeriod),
       ("net_bytes_recv_period", FieldValue.uint p.network.bytesRecvPeriod),
       ("net_upload_bytes_sec", FieldValue.rat p.network.uploadBytesPerSec),
       ("net_download_bytes_sec", FieldValue.rat p.network.downloadBytesPerSec)]
    timestamp := p.collectedAt }

/-- One `disk_metrics` point (part_005 lines 623-637): common tags plus
the `path` tag, the four disk fields, the payload timestamp. -/
def diskPoint (p : ClientPayload) (d : DiskUsagePayload) : Point :=
  { measurement := "disk_metrics"
    tags := commonTags p ++ [("path", d.path)]
    fields :=
      [("total_gb", FieldValue.rat d.totalGB),
       ("used_gb", FieldValue.rat d.usedGB),
       ("free_gb", FieldValue.rat d.freeGB),
       ("usage_percent", FieldValue.rat d.usagePercent)]
    timestamp := p.collectedAt }

/-- Go's `string(i)` conversion on an `int32`: the UTF-8 string of the
single rune with code point `i`, or the replacement character "�"
when `i` is not a valid code point (negative, a surrogate, or above
U+10FFFF). This is what `processTags["pid"] = string(proc.PID)`
(part_005 line 653) computes — not the decimal rendering. -/
def goStringOfInt32 (i : Int) : String :=
  if 0 ≤ i ∧ (i < 55296 ∨ (57343 < i ∧ i ≤ 1114111)) then
    String.mk [Char.ofNat i.toNat]
  else
    String.mk [Char.ofNat 65533]

/-- One `process_metrics` point (part_005 lines 647-661): common tags plus
the `pid` and `name` tags, the cpu/mem/user fields, the payload
timestamp. -/
def processPoint (p : ClientPayload) (proc : ProcessPayload) : Point :=
  { measurement := "process_metrics"
    tags := commonTags p ++
      [("pid", goStringOfInt32 proc.pid), ("name", proc.name)]
    fields :=
      [("cpu_percent", FieldValue.rat proc.cpuPercent),
       ("mem_percent", FieldValue.rat proc.memoryPercent),
       ("user", FieldValue.str proc.username)]
    timestamp := p.collectedAt }

/-- Outcome of `WriteStats`: the points whose write was attempted, in
order, and the returned error (if any). -/
structure WriteOutcome where
  attempted : List Point
  result : Option String
deriving DecidableEq

/-- `InfluxDBWriter.WriteStats` (part_005 lines 579-671), with the store's
per-point write outcome abstracted as the oracle `w` (`true` = success).
A failed `system_metrics` write returns immediately with an error; disk
and process point write failures are only logged — every remaining point
is still attempted and the call returns nil. -/
def WriteStats (w : Point → Bool) (p : ClientPayload) : WriteOutcome :=
  let sys := systemPoint p
  if w sys = false then
    { attempted := [sys]
      result := some "influxdb write point error for system_metrics" }
  else
    { attempted := sys :: (p.disks.map (diskPoint p) ++
        p.processes.map (processPoint p))
      result := none }

/-- HTTP response of a handler, reduced to the status plus the message the
source attaches. -/
inductive HTTPResponse
  | okResp
  | badRequest (msg : String)
  | internalError (msg : String)
deriving DecidableEq

/-- Outcome of the stats POST handler: the response and the store writes
that were attempted. -/
structure PostOutcome where
  response : HTTPResponse
  written : List Point
deriving DecidableEq

/-- `StatsHandler.PostStats` (`internal/server/api/stats_handler.go` lines
25-63). JSON binding is abstracted as the `body` argument (`none` =
`ShouldBindJSON` failed). Validation order: bind, then empty `HostID`,
then zero `CollectedAt`; each rejection responds 400 and performs no
store write; a passing payload is handed to `WriteStats`, whose error
becomes a 500. -/
def PostStats (w : Point → Bool) (body : Option ClientPayload) : PostOutcome :=
  match body with
  | none => { response := HTTPResponse.badRequest "Invalid JSON payload", written := [] }
  | some payload =>
      if payload.system.hostID = "" then
        { response := HTTPResponse.badRequest "HostID is missing in system_info"
          written := [] }
      else if payload.collectedAt = 0 then
        { response := HTTPResponse.badRequest "CollectedAt timestamp is missing or zero"
          written := [] }
      else
        let wres := WriteStats w payload
        match wres.result with
        | some _ =>
            { response := HTTPResponse.internalError "Failed to store statistics"
              written := wres.attempted }
        | none => { response := HTTPResponse.okResp, written := wres.attempted }

/-- C4: inbound POST /api/stats validation is applied in order — bind
failure first (400), then empty `system.host_id` (400), then zero
`collected_at` (400); each rejection writes nothing to the store, and
only a payload passing all three checks reaches the store write (which
is then actually attempted). -/
theorem C4_validation_order (w : Point → Bool) (body : Option ClientPayload) :
    (body = none →
      PostStats w body =
        ⟨HTTPResponse.badRequest "Invalid JSON payload", []⟩) ∧
    (∀ p, body = some p → p.system.hostID = "" →
      PostStats w body =
        ⟨HTTPResponse.badRequest "HostID is missing in system_info", []⟩) ∧
    (∀ p, body = some p → p.system.hostID ≠ "" → p.collectedAt = 0 →
      PostStats w body =
        ⟨HTTPResponse.badRequest "CollectedAt timestamp is missing or zero", []⟩) ∧
    (∀ p, body = some p → p.system.hostID ≠ "" → p.collectedAt ≠ 0 →
      (PostStats w body).written = (WriteStats w p).attempted ∧
        (WriteStats w p).attempted ≠ []) := by
  refine ⟨?_, ?_, ?_, ?_⟩
  · rintro rfl
    rfl
  · rintro p rfl h
    simp [PostStats, h]
  · rintro p rfl h h0
    simp [PostStats, h, h0]
  · rintro p rfl h h0
    simp only [PostStats]
    rw [if_neg h, if_neg h0]
    unfold WriteStats
    by_cases hw : w (systemPoint p) = false
    · simp [hw]
    · simp [hw]

/-- Witness for C4 at concrete inputs: a failed bind, an empty host_id, a
zero timestamp (each rejected with the right message and no writes), and
a passing payload whose store write is attempted. -/
theorem C4_validation_order_witness :
    PostStats (fun _ => true) none =
      ⟨HTTPResponse.badRequest "Invalid JSON payload", []⟩ ∧
    PostStats (fun _ => true)
        (some ⟨5, ⟨"h1", "", "linux", "v", "k", "kv", "1h"⟩,
          ⟨"m", 8, 10⟩, ⟨16, 4, 50⟩, ⟨"all", 1, 2, 3, 4, 5, 6⟩, [], []⟩) =
      ⟨HTTPResponse.badRequest "HostID is missing in system_info", []⟩ ∧
    PostStats (fun _ => true)
        (some ⟨0, ⟨"h1", "abc", "linux", "v", "k", "kv", "1h"⟩,
          ⟨"m", 8, 10⟩, ⟨16, 4, 50⟩, ⟨"all", 1, 2, 3, 4, 5, 6⟩, [], []⟩) =
      ⟨HTTPResponse.badRequest "CollectedAt timestamp is missing or zero", []⟩ ∧
    (PostStats (fun _ => true)
        (some ⟨5, ⟨"h1", "abc", "linux", "v", "k", "kv", "1h"⟩,
          ⟨"m", 8, 10⟩, ⟨16, 4, 50⟩, ⟨"all", 1, 2, 3, 4, 5, 6⟩, [], []⟩)).written ≠
      [] := by
  refine ⟨(C4_validation_order (fun _ => true) none).1 rfl, ?_, ?_, ?_⟩
  · exact (C4_validation_order (fun _ => true) _).2.1 _ rfl rfl
  · exact (C4_validation_order (fun _ => true) _).2.2.1 _ rfl (by decide) rfl
  · have h := (C4_validation_order (fun _ => true) _).2.2.2
      ⟨5, ⟨"h1", "abc", "linux", "v", "k", "kv", "1h"⟩,
        ⟨"m", 8, 10⟩, ⟨16, 4, 50⟩, ⟨"all", 1, 2, 3, 4, 5, 6⟩, [], []⟩
      rfl (by decide) (by decide)
    rw [h.1]
    exact h.2

/-- C5: for every payload, `WriteStats` fails (surfaced as 500) iff the
write of the primary `system_metrics` point fails; when the primary
write succeeds, every disk and process point is still attempted no
matter how their individual writes fare, and the call succeeds; when the
primary write fails, nothing further is attempted. -/
theorem C5_primary_write_failure (w : Point → Bool) (p : ClientPayload) :
    ((WriteStats w p).result.isSome = true ↔ w (systemPoint p) = false) ∧
    (w (systemPoint p) = true →
      (WriteStats w p).attempted =
        systemPoint p :: (p.disks.map (diskPoint p) ++
          p.processes.map (processPoint p)) ∧
      (WriteStats w p).result = none) ∧
    (w (systemPoint p) = false → (WriteStats w p).attempted = [systemPoint p]) := by
  unfold WriteStats
  by_cases hw : w (systemPoint p) = false
  · simp [hw]
  · have hw' : w (systemPoint p) = true := by
      cases h : w (systemPoint p) with
      | false => exact absurd h hw
      | true => rfl
    simp [hw']

/-- Witness for C5 at a concrete input: with a store that rejects every
`disk_metrics` write but accepts the rest, ingestion of a payload with
one disk and one process still succeeds and attempts all three points. -/
theorem C5_primary_write_failure_witness :
    (WriteStats (fun pt => decide (pt.measurement ≠ "disk_metrics"))
        ⟨5, ⟨"h1", "abc", "linux", "v", "k", "kv", "1h"⟩,
          ⟨"m", 8, 10⟩, ⟨16, 4, 50⟩, ⟨"all", 1, 2, 3, 4, 5, 6⟩,
          [⟨42, "proc", 11, 2, "u"⟩], [⟨"/", 100, 40, 60, 40⟩]⟩).result = none ∧
    (WriteStats (fun pt => decide (pt.measurement ≠ "disk_metrics"))
        ⟨5, ⟨"h1", "abc", "linux", "v", "k", "kv", "1h"⟩,
          ⟨"m", 8, 10⟩, ⟨16, 4, 50⟩, ⟨"all", 1, 2, 3, 4, 5, 6⟩,
          [⟨42, "proc", 11, 2, "u"⟩], [⟨"/", 100, 40, 60, 40⟩]⟩).attempted.length =
      3 := by
  have h := (C5_primary_write_failure
    (fun pt => decide (pt.measurement ≠ "disk_metrics"))
    ⟨5, ⟨"h1", "abc", "linux", "v", "k", "kv", "1h"⟩,
      ⟨"m", 8, 10⟩, ⟨16, 4, 50⟩, ⟨"all", 1, 2, 3, 4, 5, 6⟩,
      [⟨42, "proc", 11, 2, "u"⟩], [⟨"/", 100, 40, 60, 40⟩]⟩).2.1
    (by simp [systemPoint])
  refine ⟨h.2, ?_⟩
  rw [h.1]
  simp

/-- C6: every point one ingestion call attempts to write — the
`system_metrics` point, each `disk_metrics` point and each
`process_metrics` point — carries the payload's `collected_at` as its
timestamp. -/
theorem C6_shared_timestamp (w : Point → Bool) (p : ClientPayload) :
    ∀ pt ∈ (WriteStats w p).attempted, pt.timestamp = p.collectedAt := by
  intro pt hpt
  unfold WriteStats at hpt
  by_cases hw : w (systemPoint p) = false
  · rw [if_pos hw] at hpt
    simp only [List.mem_singleton] at hpt
    subst hpt
    rfl
  · rw [if_neg hw] at hpt
    simp only [List.mem_cons, List.mem_append, List.mem_map] at hpt
    rcases hpt with rfl | ⟨d, _, rfl⟩ | ⟨pr, _, rfl⟩
    · rfl
    · rfl
    · rfl

/-- Witness for C6 at a concrete input: the disk point of a payload
collected at instant 5 carries timestamp 5. -/
theorem C6_shared_timestamp_witness :
    (diskPoint ⟨5, ⟨"h1", "abc", "linux", "v", "k", "kv", "1h"⟩,
        ⟨"m", 8, 10⟩, ⟨16, 4, 50⟩, ⟨"all", 1, 2, 3, 4, 5, 6⟩,
        [], [⟨"/", 100, 40, 60, 40⟩]⟩ ⟨"/", 100, 40, 60, 40⟩).timestamp = 5 :=
  C6_shared_timestamp (fun _ => true)
    ⟨5, ⟨"h1", "abc", "linux", "v", "k", "kv", "1h"⟩,
      ⟨"m", 8, 10⟩, ⟨16, 4, 50⟩, ⟨"all", 1, 2, 3, 4, 5, 6⟩,
      [], [⟨"/", 100, 40, 60, 40⟩]⟩ _ (by simp [WriteStats])

/-- C10 is the claim the code was meant to satisfy but does not: the
writer stores `string(proc.PID)` as the `pid` tag, which is the UTF-8
string of the rune with that code point (Go's integer-to-string
conversion), not the decimal rendering. For PID 65 the tag is "A"; the
details join's `fmt.Sscan` decimal parse of "A" fails and leaves the pid
at 0, which differs from 65 — so the pid does not round-trip through the
store for any multi-digit or non-digit-code-point pid. -/
theorem C10_pid_tag_not_decimal :
    goStringOfInt32 65 = "A" ∧
      parsePid (goStringOfInt32 65) = 0 ∧ (0 : Int) ≠ 65 := by
  refine ⟨by decide, by decide, by decide⟩

/-! ## Metric history endpoint (`dashboard_handler.go` lines 66-112,
reader `GetHostMetricHistory` part_005 lines 457-476) -/

/-- The handler's `allowedMetrics` map (dashboard_handler.go lines
93-96). -/
def allowedMetrics (m : String) : Bool :=
  m = "cpu_usage_percent" || m = "mem_usage_percent" ||
    m = "net_upload_bytes_sec" || m = "net_download_bytes_sec"

/-- The reader's `validNumericFields` map (part_005 lines 459-465) — the
same four fields. -/
def validNumericFields (m : String) : Bool :=
  m = "cpu_usage_percent" || m = "mem_usage_percent" ||
    m = "net_upload_bytes_sec" || m = "net_download_bytes_sec"

/-- The flux range/filter/aggregate query the reader renders and sends to
the store (part_005 lines 470-476): measurement `system_metrics`,
filtered on the host and field, mean-aggregated windows. -/
structure QuerySpec where
  hostID : String
  metricField : String
  rangeStartNs : Int
  aggregateEveryNs : Int
deriving DecidableEq

/-- `InfluxDBReader.GetHostMetricHistory` validation and query
construction (part_005 lines 457-483): reject a field outside
`validNumericFields`, otherwise issue the range query. -/
def readerMetricHistory (hostID metricField : String)
    (rangeStart aggregateInterval : Int) : Except String QuerySpec :=
  if validNumericFields metricField = false then
    Except.error ("invalid or non-numeric metric field for history: " ++ metricField)
  else
    Except.ok
      { hostID := hostID
        metricField := metricField
        rangeStartNs := rangeStart
        aggregateEveryNs := aggregateInterval }

/-- Outcome of the metric-history handler: the response plus the store
query that was issued, if any. -/
structure HistoryOutcome where
  response : HTTPResponse
  issuedQuery : Option QuerySpec
deriving DecidableEq

/-- `DashboardHandler.GetHostMetricHistory` (dashboard_handler.go lines
66-112). `time.ParseDuration` is abstracted as the oracle `parseDur`
(`none` = parse error). Checks, in source order: required path
parameters; `range` (defaulted to "1h") parses; `aggregate` (defaulted
to "30s") parses; metric in the allow-list; then the reader runs. -/
def GetHostMetricHistory (parseDur : String → Option Int)
    (hostID metricName : String) (rangeParam aggregateParam : Option String) :
    HistoryOutcome :=
  if hostID = "" ∨ metricName = "" then
    { response := HTTPResponse.badRequest "hostID and metricName parameters are required"
      issuedQuery := none }
  else
    match parseDur (rangeParam.getD "1h") with
    | none =>
        { response := HTTPResponse.badRequest "Invalid range duration format"
          issuedQuery := none }
    | some rangeDuration =>
        match parseDur (aggregateParam.getD "30s") with
        | none =>
            { response := HTTPResponse.badRequest "Invalid aggregate interval format"
              issuedQuery := none }
        | some aggregateInterval =>
            if allowedMetrics metricName = false then
              { response := HTTPResponse.badRequest "Invalid metric name specified"
                issuedQuery := none }
            else
              match readerMetricHistory hostID metricName rangeDuration
                  aggregateInterval with
              | Except.error _ =>
                  { response := HTTPResponse.internalError "Failed to retrieve metric history"
                    issuedQuery := none }
              | Except.ok spec =>
                  { response := HTTPResponse.okResp, issuedQuery := some spec }

/-- Truth of "the handler rejected the request with a 400". -/
def isBadRequest : HTTPResponse → Bool
  | HTTPResponse.badRequest _ => true
  | _ => false

/-- C9: for every metric-history request (on a matched route, so the
hostID path parameter is non-empty), the handler responds 400 iff the
metric is outside the four-field allow-list or the (defaulted) range or
aggregate duration fails to parse; no store query is issued on any
rejection; a query is issued exactly when no check fails; and omitted
`range` and `aggregate` parameters behave exactly as the literals "1h"
and "30s". -/
theorem C9_history_validation (parseDur : String → Option Int)
    (hostID metricName : String) (rangeParam aggregateParam : Option String)
    (hh : hostID ≠ "") :
    (isBadRequest (GetHostMetricHistory parseDur hostID metricName
        rangeParam aggregateParam).response = true ↔
      (allowedMetrics metricName = false ∨
        parseDur (rangeParam.getD "1h") = none ∨
        parseDur (aggregateParam.getD "30s") = none)) ∧
    ((GetHostMetricHistory parseDur hostID metricName
        rangeParam aggregateParam).issuedQuery.isSome = true ↔
      ¬(allowedMetrics metricName = false ∨
        parseDur (rangeParam.getD "1h") = none ∨
        parseDur (aggregateParam.getD "30s") = none)) ∧
    (GetHostMetricHistory parseDur hostID metricName none aggregateParam =
      GetHostMetricHistory parseDur hostID metricName (some "1h") aggregateParam) ∧
    (GetHostMetricHistory parseDur hostID metricName rangeParam none =
      GetHostMetricHistory parseDur hostID metricName rangeParam (some "30s")) := by
  have key : ∀ rp ap : Option String,
      (isBadRequest (GetHostMetricHistory parseDur hostID metricName
          rp ap).response = true ↔
        (allowedMetrics metricName = false ∨
          parseDur (rp.getD "1h") = none ∨ parseDur (ap.getD "30s") = none)) ∧
      ((GetHostMetricHistory parseDur hostID metricName
          rp ap).issuedQuery.isSome = true ↔
        ¬(allowedMetrics metricName = false ∨
          parseDur (rp.getD "1h") = none ∨ parseDur (ap.getD "30s") = none)) := by
    intro rp ap
    unfold GetHostMetricHistory
    by_cases hm : metricName = ""
    · have hall : allowedMetrics metricName = false := by
        subst hm
        rfl
      rw [if_pos (Or.inr hm)]
      simp [isBadRequest, hall]
    · rw [if_neg (by exact fun hor => hor.elim hh hm)]
      cases hr : parseDur (rp.getD "1h") with
      | none => simp [isBadRequest]
      | some rd =>
          cases ha : parseDur (ap.getD "30s") with
          | none => simp [isBadRequest]
          | some ad =>
              cases hb : allowedMetrics metricName with
              | false => simp [isBadRequest, hb]
              | true =>
                  have hv : validNumericFields metricName = true := by
                    unfold validNumericFields
                    unfold allowedMetrics at hb
                    exact hb
                  simp [isBadRequest, hb, readerMetricHistory, hv]
  refine ⟨(key rangeParam aggregateParam).1, (key rangeParam aggregateParam).2,
    ?_, ?_⟩
  · rfl
  · rfl

/-- Witness for C9 at concrete inputs: with a parse oracle accepting only
"1h" and "30s", an omitted-parameters request for "cpu_usage_percent" is
not rejected and issues a store query, while a request for the
disallowed field "os" is rejected with a 400 and issues none. -/
theorem C9_history_validation_witness :
    (GetHostMetricHistory
        (fun s => if s = "1h" then some 3600000000000 else
          if s = "30s" then some 30000000000 else none)
        "abc" "cpu_usage_percent" none none).issuedQuery.isSome = true ∧
    isBadRequest (GetHostMetricHistory
        (fun s => if s = "1h" then some 3600000000000 else
          if s = "30s" then some 30000000000 else none)
        "abc" "os" none none).response = true := by
  constructor
  · exact (C9_history_validation
      (fun s => if s = "1h" then some 3600000000000 else
        if s = "30s" then some 30000000000 else none)
      "abc" "cpu_usage_percent" none none (by decide)).2.1.mpr (by decide)
  · exact (C9_history_validation
      (fun s => if s = "1h" then some 3600000000000 else
        if s = "30s" then some 30000000000 else none)
      "abc" "os" none none (by decide)).1.mpr (by decide)

end StatsMon
